import Mathlib

/-!
Verification development for the MORSE URDF importer
(`src/morse/builder/urdf.py`).

The module converts a URDF robot description into an armature (bone
hierarchy) plus visual mesh objects inside the Blender host.  We embed the
kinematic core shallowly:

* vectors and quaternions are records of rationals; the host math library
  (`morse.core.mathutils`, wrapping Blender's `mathutils`) is an external
  collaborator, so its `Euler(...).to_quaternion()` trigonometry is
  represented by carrying each Euler angle as the pair
  (cos(angle/2), sin(angle/2)) — the conversion formula itself is then the
  exact polynomial Blender evaluates, computable over ℚ;
* Python objects become structures; `None`-able fields become `Option`;
* host-scene mutation (bone creation, object creation, parenting) is
  explicit state passing over a `Scene` record;
* code that can raise an uncaught Python exception returns `Except PyErr`.
-/

/-- Three rational coordinates, embedding `mathutils.Vector`. -/
structure Vec3 where
  x : ℚ
  y : ℚ
  z : ℚ
deriving DecidableEq, Repr

instance : Add Vec3 := ⟨fun a b => ⟨a.x + b.x, a.y + b.y, a.z + b.z⟩⟩

instance : Sub Vec3 := ⟨fun a b => ⟨a.x - b.x, a.y - b.y, a.z - b.z⟩⟩

instance : Zero Vec3 := ⟨⟨0, 0, 0⟩⟩

theorem Vec3.add_def (a b : Vec3) : a + b = ⟨a.x + b.x, a.y + b.y, a.z + b.z⟩ := rfl

theorem Vec3.sub_def (a b : Vec3) : a - b = ⟨a.x - b.x, a.y - b.y, a.z - b.z⟩ := rfl

/-- Squared Euclidean norm of a vector (stays in ℚ). -/
def Vec3.normSq (v : Vec3) : ℚ := v.x ^ 2 + v.y ^ 2 + v.z ^ 2

/-- A quaternion with rational components, embedding `mathutils.Quaternion`. -/
structure Quat where
  w : ℚ
  x : ℚ
  y : ℚ
  z : ℚ
deriving DecidableEq, Repr

/-- Hamilton product. -/
def Quat.mul (a b : Quat) : Quat :=
  ⟨a.w * b.w - a.x * b.x - a.y * b.y - a.z * b.z,
   a.w * b.x + a.x * b.w + a.y * b.z - a.z * b.y,
   a.w * b.y - a.x * b.z + a.y * b.w + a.z * b.x,
   a.w * b.z + a.x * b.y - a.y * b.x + a.z * b.w⟩

/-- Quaternion conjugate. -/
def Quat.conj (q : Quat) : Quat := ⟨q.w, -q.x, -q.y, -q.z⟩

/-- Squared quaternion norm. -/
def Quat.normSq (q : Quat) : ℚ := q.w ^ 2 + q.x ^ 2 + q.y ^ 2 + q.z ^ 2

/-- Identity quaternion. -/
def Quat.one : Quat := ⟨1, 0, 0, 0⟩

/-- Rotation of a vector by a quaternion, `q * v` in `mathutils`: the vector
part of `q ⬝ (0,v) ⬝ conj q` (for the unit quaternions produced by Euler
conversion this is the rotation the host applies). -/
def qrot (q : Quat) (v : Vec3) : Vec3 :=
  let p := (q.mul ⟨0, v.x, v.y, v.z⟩).mul q.conj
  ⟨p.x, p.y, p.z⟩

/-- Conjugation scales the squared norm by the square of the quaternion's
squared norm; in particular unit quaternions preserve length. -/
theorem qrot_normSq (q : Quat) (v : Vec3) :
    (qrot q v).normSq = q.normSq ^ 2 * v.normSq := by
  cases q
  cases v
  simp only [qrot, Quat.mul, Quat.conj, Quat.normSq, Vec3.normSq]
  ring

/-- One Euler angle, represented by the cosine and sine of its half angle —
the values Blender's `Euler.to_quaternion` actually feeds into its
polynomial conversion formula.  Angle 0 is ⟨1, 0⟩, angle π is ⟨0, 1⟩. -/
structure AngleHalf where
  c : ℚ
  s : ℚ
deriving DecidableEq, Repr

/-- A roll-pitch-yaw Euler triple in XYZ order (`mathutils.Euler(rpy, 'XYZ')`). -/
structure Euler3 where
  rx : AngleHalf
  ry : AngleHalf
  rz : AngleHalf
deriving DecidableEq, Repr

/-- The zero Euler triple `(0, 0, 0)`. -/
def Euler3.zero : Euler3 := ⟨⟨1, 0⟩, ⟨1, 0⟩, ⟨1, 0⟩⟩

/-- `Euler(rpy, 'XYZ').to_quaternion()`: X applied first, then Y, then Z,
i.e. the product `qz ⬝ qy ⬝ qx` of the single-axis quaternions. -/
def Euler3.to_quaternion (e : Euler3) : Quat :=
  let qx : Quat := ⟨e.rx.c, e.rx.s, 0, 0⟩
  let qy : Quat := ⟨e.ry.c, 0, e.ry.s, 0⟩
  let qz : Quat := ⟨e.rz.c, 0, 0, e.rz.s⟩
  qz.mul (qy.mul qx)

theorem Euler3.zero_to_quaternion : Euler3.zero.to_quaternion = Quat.one := by
  simp only [Euler3.zero, Euler3.to_quaternion, Quat.mul, Quat.one]
  norm_num

deriving instance DecidableEq for Except

/-- `EPSILON = 0.00001` (module constant, line 20 of the source). -/
def EPSILON : ℚ := 1 / 100000

/-! ## URDF parser output (external `urdf_parser_py` objects)

`urdf_parser_py` fills origin attributes with default `[0,0,0]` vectors, so
a parsed origin always carries an `xyz` and an `rpy` list; the joint
constructor's `if urdf_joint.origin.rpy:` truthiness test is on a non-empty
list and therefore always taken.  Optional sub-elements are `Option`. -/

/-- A parsed `<origin>` element (`urdf_parser_py` `Pose`). -/
structure URDFPose where
  xyz : Vec3
  rpy : Euler3
deriving DecidableEq, Repr

/-- A parsed `<color rgba="...">`; the `rgba` attribute itself may be absent. -/
structure URDFColor where
  rgba : Option (ℚ × ℚ × ℚ × ℚ)
deriving DecidableEq, Repr

/-- A parsed `<texture>`; an absent filename is the empty string (falsy). -/
structure URDFTexture where
  filename : String
deriving DecidableEq, Repr

/-- A parsed `<material>`; an absent name is the empty string (falsy). -/
structure URDFMaterialIn where
  name : String
  color : Option URDFColor
  texture : Option URDFTexture
deriving DecidableEq, Repr

/-- A parsed `<limit lower upper>`. -/
structure URDFLimit where
  lower : ℚ
  upper : ℚ
deriving DecidableEq, Repr

/-- A Blender scene object, with the fields the importer reads or writes.
Fresh primitives start from Blender's defaults; `data_materials` is
`obj.data.materials` (`none` for data-less objects such as empties, whose
material access raises `AttributeError`). -/
structure Obj where
  name : String
  location : Vec3
  rotation_mode : String
  rotation_quaternion : Quat
  scale : Vec3
  dimensions : Vec3
  parent : Option String
  parent_type : String
  parent_bone : Option String
  data_materials : Option (List String)
deriving DecidableEq, Repr

/-- A freshly created mesh object of the given name. -/
def Obj.fresh (name : String) : Obj :=
  ⟨name, 0, "XYZ", Quat.one, ⟨1, 1, 1⟩, ⟨0, 0, 0⟩, none, "OBJECT", none, some []⟩

/-- Geometry descriptor of a visual (`Mesh | Box | Cylinder | Sphere`).
For a mesh, `imported` is the delta of scene objects the host's
COLLADA/STL importer reports for the referenced file — the reply of the
external import call, carried as data. -/
inductive URDFGeometry where
  | mesh (filename : String) (scale : Option Vec3) (imported : List Obj)
  | box (size : Vec3)
  | cylinder (radius length : ℚ)
  | sphere (radius : ℚ)
deriving DecidableEq, Repr

/-- A parsed `<visual>` element. -/
structure URDFVisual where
  origin : Option URDFPose
  geometry : Option URDFGeometry
  material : Option URDFMaterialIn
deriving DecidableEq, Repr

/-- A parsed `<inertial>` element (only its origin matters here). -/
structure URDFInertial where
  origin : Option URDFPose
deriving DecidableEq, Repr

/-- A parsed `<collision>` element (only its origin matters here). -/
structure URDFCollision where
  origin : Option URDFPose
deriving DecidableEq, Repr

/-- A parsed `<link>` element. -/
structure URDFLinkIn where
  name : String
  inertial : Option URDFInertial
  visual : Option URDFVisual
  collision : Option URDFCollision
deriving DecidableEq, Repr

/-- A parsed `<joint>` element. -/
structure URDFJointIn where
  name : String
  type : String
  origin : Option URDFPose
  axis : Option Vec3
  limit : Option URDFLimit
  parent : String
  child : String
deriving DecidableEq, Repr

/-! ## `URDFLink` (the importer's link record) -/

/-- The `URDFLink` class after `__init__`: the parsed sub-elements plus the
derived origin `xyz`/`rot` computed by `_get_origin`. -/
structure URDFLink where
  name : String
  inertial : Option URDFInertial
  visual : Option URDFVisual
  collision : Option URDFCollision
  xyz : Vec3
  rot : Quat
deriving DecidableEq, Repr

/-- `URDFLink.__init__` together with `_get_origin` (lines 24-55): pick the
origin of the inertial if it has one, else of the collision, else of the
visual, else the identity, and store `Vector(xyz)` and
`Euler(rpy,'XYZ').to_quaternion()`.  Total: construction never fails. -/
def URDFLink.make (l : URDFLinkIn) : URDFLink :=
  let sel : Vec3 × Euler3 :=
    match l.inertial.bind URDFInertial.origin,
          l.collision.bind URDFCollision.origin,
          l.visual.bind URDFVisual.origin with
    | some o, _, _ => (o.xyz, o.rpy)
    | none, some o, _ => (o.xyz, o.rpy)
    | none, none, some o => (o.xyz, o.rpy)
    | none, none, none => (⟨0, 0, 0⟩, Euler3.zero)
  ⟨l.name, l.inertial, l.visual, l.collision, sel.1, sel.2.to_quaternion⟩

/-! ## `URDFJoint` (the joint-node tree) -/

/-- Joint kind constants (`URDFJoint.FIXED` etc.). -/
def FIXED : String := "fixed"

/-- `URDFJoint.PRISMATIC`. -/
def PRISMATIC : String := "prismatic"

/-- `URDFJoint.REVOLUTE`. -/
def REVOLUTE : String := "revolute"

/-- The `URDFJoint` class: one node of the kinematic tree.  The transient
`editbone`/`posebone` back-references are pass-scoped annotations and are
modelled by the explicit parent arguments of the two passes instead. -/
inductive URDFJoint where
  | mk (name : String) (type : String) (xyz : Vec3) (rot : Quat)
       (link : URDFLink) (axis : Option Vec3) (limit : Option URDFLimit)
       (children : List URDFJoint)

/-- Joint name. -/
def URDFJoint.name : URDFJoint → String
  | .mk n _ _ _ _ _ _ _ => n

/-- Joint kind. -/
def URDFJoint.type : URDFJoint → String
  | .mk _ t _ _ _ _ _ _ => t

/-- Joint origin translation. -/
def URDFJoint.xyz : URDFJoint → Vec3
  | .mk _ _ v _ _ _ _ _ => v

/-- Joint origin orientation. -/
def URDFJoint.rot : URDFJoint → Quat
  | .mk _ _ _ q _ _ _ _ => q

/-- The joint's child link record. -/
def URDFJoint.link : URDFJoint → URDFLink
  | .mk _ _ _ _ l _ _ _ => l

/-- Joint axis, if declared. -/
def URDFJoint.axis : URDFJoint → Option Vec3
  | .mk _ _ _ _ _ a _ _ => a

/-- Joint limit, if declared. -/
def URDFJoint.limit : URDFJoint → Option URDFLimit
  | .mk _ _ _ _ _ _ l _ => l

/-- Child joint nodes, in document order. -/
def URDFJoint.children : URDFJoint → List URDFJoint
  | .mk _ _ _ _ _ _ _ c => c

/-- `URDFJoint.__init__` (lines 67-97): default the origin to identity when
absent, convert `rpy` with the host's Euler conversion, build the child
link record, and take over axis and limit.  (`origin.rpy` is a list, hence
truthy, whenever an origin element exists — see the parser note above.) -/
def URDFJoint.make (j : URDFJointIn) (l : URDFLinkIn)
    (children : List URDFJoint) : URDFJoint :=
  let xyz : Vec3 := match j.origin with
    | some o => o.xyz
    | none => ⟨0, 0, 0⟩
  let rpy : Euler3 := match j.origin with
    | some o => o.rpy
    | none => Euler3.zero
  .mk j.name j.type xyz rpy.to_quaternion (URDFLink.make l) j.axis j.limit
    children

/-! ## Pass 1 — rest pose (`build_editmode`, lines 104-125) -/

/-- The host's rest matrix of a bone (`armature.data.bones[n].matrix_local`).
Blender derives it from the edit-time head/tail/roll when leaving edit
mode; its translation component is the bone's head.  The orientation and
scale parts are host-computed and not depended on by any claim; they are
modelled as the identity. -/
structure Transform where
  loc : Vec3
  rot : Quat
  scl : Vec3
deriving DecidableEq, Repr

/-- Rest matrix of a bone with the given head (see `Transform`). -/
def boneRestMatrix (head : Vec3) : Transform := ⟨head, Quat.one, ⟨1, 1, 1⟩⟩

/-- An armature bone as created by pass 1 (also standing for the
`armature.data.bones` entry pass 2 reads). -/
structure EditBone where
  name : String
  parent : Option String
  head : Vec3
  tail : Vec3
  matrix_local : Transform
  use_relative_parent : Bool
deriving DecidableEq, Repr

mutual

/-- `URDFJoint.build_editmode` (lines 104-125): create a bone named after
the joint; with a parent bone, parent it and set
`head = rot * xyz + parent.head`, else `head = rot * xyz`; always set
`tail = rot * (0,0,EPSILON) + head`; then recurse into the children with
the new bone as parent.  Returns the bones in creation order. -/
def build_editmode (j : URDFJoint) (parent : Option EditBone) :
    List EditBone :=
  match j with
  | .mk n _t xyz rot _lk _ax _lim children =>
    let hd : Vec3 := match parent with
      | some pb => qrot rot xyz + pb.head
      | none => qrot rot xyz
    let tl : Vec3 := qrot rot ⟨0, 0, EPSILON⟩ + hd
    let b : EditBone :=
      ⟨n, parent.map EditBone.name, hd, tl, boneRestMatrix hd, false⟩
    b :: build_editmode_list children (some b)

/-- The `for child in self.children: child.build_editmode(armature, self)`
loop of `build_editmode`. -/
def build_editmode_list (js : List URDFJoint) (parent : Option EditBone) :
    List EditBone :=
  match js with
  | [] => []
  | c :: cs => build_editmode c parent ++ build_editmode_list cs parent

end

/-! ## The tree walk (`URDF._walk_urdf`, lines 333-347) -/

/-- Python exceptions that can escape the embedded code, plus the two error
kinds the specification names.  The code defines neither a
`MalformedTreeError` nor a `BoneNotFoundError`; the constructors exist so
the corresponding claims are statable. -/
inductive PyErr where
  | keyError (key : String)
  | typeError
  | attributeError
  | recursionError
  | malformedTree
  | boneNotFound
deriving DecidableEq, Repr

/-- The parsed URDF document (`self.urdf`): flat joint list, link table,
global materials, and the declared root link name (`get_root()`). -/
structure URDFDoc where
  joints : List URDFJointIn
  links : List URDFLinkIn
  materials : List URDFMaterialIn
  root : String
deriving DecidableEq, Repr

/-- `self.urdf.link_map[n]` as a partial lookup. -/
def URDFDoc.link_map (doc : URDFDoc) (n : String) : Option URDFLinkIn :=
  doc.links.find? (fun l => l.name == n)

/-- The `[(joint, self.urdf.link_map[joint.child]) for joint in joints]`
comprehension: a missing child link raises `KeyError` before any node of
this level is built. -/
def link_pairs (doc : URDFDoc) :
    List URDFJointIn → Except PyErr (List (URDFJointIn × URDFLinkIn))
  | [] => .ok []
  | j :: js => do
    match doc.link_map j.child with
    | none => .error (.keyError j.child)
    | some cl =>
      let rest ← link_pairs doc js
      .ok ((j, cl) :: rest)

/-- `URDF._get_urdf_connections` (lines 345-347): the joints whose `parent`
field names this link, in document order, paired with their child links. -/
def get_urdf_connections (doc : URDFDoc) (link : URDFLinkIn) :
    Except PyErr (List (URDFJointIn × URDFLinkIn)) :=
  link_pairs doc (doc.joints.filter (fun j => j.parent == link.name))

mutual

/-- `URDF._walk_urdf` (lines 333-343): for every connection of `link`,
construct the `URDFJoint` node, recurse into the child link to populate its
children, and collect the nodes.  `fuel` bounds the recursion depth exactly
as Python's recursion limit does; exhaustion is `RecursionError`, which a
cyclic document would hit. -/
def walk_urdf (fuel : Nat) (doc : URDFDoc) (link : URDFLinkIn) :
    Except PyErr (List URDFJoint) :=
  match fuel with
  | 0 => .error .recursionError
  | f + 1 => do
    let conns ← get_urdf_connections doc link
    walk_conns f doc conns
termination_by (fuel, 0)

/-- The `for joint, child_link in ...` loop body of `_walk_urdf`. -/
def walk_conns (fuel : Nat) (doc : URDFDoc) :
    List (URDFJointIn × URDFLinkIn) → Except PyErr (List URDFJoint)
  | [] => .ok []
  | (j, cl) :: rest => do
    let kids ← walk_urdf fuel doc cl
    let node := URDFJoint.make j cl kids
    let others ← walk_conns fuel doc rest
    .ok (node :: others)
termination_by l => (fuel, l.length + 1)

end

/-- `self.roots = self._walk_urdf(self.urdf.link_map[self.urdf.get_root()])`
(line 329).  One fuel unit per joint plus one is enough depth for every
acyclic document. -/
def URDF.roots (doc : URDFDoc) : Except PyErr (List URDFJoint) :=
  match doc.link_map doc.root with
  | none => .error (.keyError doc.root)
  | some rl => walk_urdf (doc.joints.length + 1) doc rl

/-! ## Materials (module-level `MATERIALS` registry and host store) -/

/-- One entry of the process-wide `MATERIALS` registry. -/
structure MatEntry where
  color : Option (ℚ × ℚ × ℚ × ℚ)
  texture : Option String
deriving DecidableEq, Repr

/-- `MATERIALS[n]` lookup (first entry of that name). -/
def MATERIALS_find (reg : List (String × MatEntry)) (n : String) :
    Option MatEntry :=
  (reg.find? (fun e => e.1 == n)).map Prod.snd

/-- Module-level `add_material` (lines 378-392): insert a URDF material
into the registry unless the name is already present; the entry's color is
the declared rgba if the material has a color with an rgba, its texture the
declared filename if non-empty. -/
def add_material (reg : List (String × MatEntry)) (m : URDFMaterialIn) :
    List (String × MatEntry) :=
  if (reg.find? (fun e => e.1 == m.name)).isSome then
    reg
  else
    let color := m.color.bind URDFColor.rgba
    let texture := match m.texture with
      | some t => if t.filename == "" then none else some t.filename
      | none => none
    reg ++ [(m.name, ⟨color, texture⟩)]

/-- A material of the host store (`bpy.data.materials`); `diffuse_color`
is `none` until the importer assigns it. -/
structure HostMat where
  name : String
  diffuse_color : Option (ℚ × ℚ × ℚ)
deriving DecidableEq, Repr

/-- Lines 295-297: `bpymorse.get_material(name)` and, when that finds
nothing, `bpymorse.get_materials().new(name)` — fetch the material of that
name or append a fresh one. -/
def get_material_or_new (store : List HostMat) (n : String) : List HostMat :=
  match store.find? (fun m => m.name == n) with
  | some _ => store
  | none => store ++ [⟨n, none⟩]

/-- `mat.diffuse_color = c` on the material `get_material` returned: update
the first store entry of that name. -/
def set_diffuse : List HostMat → String → ℚ × ℚ × ℚ → List HostMat
  | [], _, _ => []
  | m :: ms, n, c =>
    if m.name == n then { m with diffuse_color := some c } :: ms
    else m :: set_diffuse ms n c

/-- `URDFJoint.add_material` (lines 258-306).  Returns the updated host
store, the updated object and the printed messages.  Notes:
* a falsy material name makes line 271 read `self.link.material`, an
  attribute `URDFLink` never defines — the resulting `AttributeError`
  escapes;
* a local material (own color or texture) never reads the registry;
* a global name missing from the registry is only logged;
* `obj.data.materials.append` on a data-less object raises
  `AttributeError`, which the `try` swallows (the fetched-or-created host
  material still exists);
* when the resolved rgba is `None` (color-less local or registry entry),
  `rgba[0]` in line 301 raises `TypeError`, which the
  `except AttributeError` does not catch. -/
def URDFJoint.add_material (reg : List (String × MatEntry))
    (store : List HostMat) (link : URDFLink) (obj : Obj) :
    Except PyErr (List HostMat × Obj × List String) :=
  match link.visual with
  | none => .ok (store, obj, [])
  | some vis =>
    match vis.material with
    | none => .ok (store, obj, [])
    | some material =>
      if material.name == "" then
        .error .attributeError
      else
        let resolved : Option (Option (ℚ × ℚ × ℚ × ℚ)) :=
          if material.color.isSome || material.texture.isSome then
            some (material.color.bind URDFColor.rgba)
          else
            match MATERIALS_find reg material.name with
            | none => none
            | some e => some e.color
        match resolved with
        | none =>
          .ok (store, obj, ["Global material not found: " ++ material.name])
        | some rgba =>
          let store1 := get_material_or_new store material.name
          match obj.data_materials with
          | none => .ok (store1, obj, [])
          | some ms =>
            match rgba with
            | none => .error .typeError
            | some c =>
              .ok (set_diffuse store1 material.name (c.1, c.2.1, c.2.2.1),
                   { obj with data_materials := some (ms ++ [material.name]) },
                   [])

/-! ## Geometry instancing (`create_objects_by_link`, lines 394-467) -/

/-- `create_objects_by_link`: dispatch on the geometry descriptor.  A mesh
reference yields the host importer's object delta (only for `.dae`/`.stl`
filenames) with any declared scale applied component-wise; box, cylinder
and sphere create one primitive renamed to the link (their `dimensions` are
the host-derived bounding sizes); with no geometry, a small `ARROWS` empty
marker (empties carry no mesh data).  Every produced object then gets the
link's origin position and orientation (the host's `origin_set` cursor
operation leaves no modelled field). -/
def create_objects_by_link (link : URDFLink) : List Obj :=
  let visuals : List Obj :=
    match link.visual.bind URDFVisual.geometry with
    | some (.mesh filename scale imported) =>
      let vs :=
        if ".dae".toList <:+: filename.toList then imported
        else if ".stl".toList <:+: filename.toList then imported
        else []
      match scale with
      | some sc => vs.map (fun v =>
          { v with scale := ⟨v.scale.x * sc.x, v.scale.y * sc.y,
                             v.scale.z * sc.z⟩ })
      | none => vs
    | some (.box size) => [{ Obj.fresh link.name with dimensions := size }]
    | some (.cylinder r l) =>
      [{ Obj.fresh link.name with dimensions := ⟨2 * r, 2 * r, l⟩ }]
    | some (.sphere r) =>
      [{ Obj.fresh link.name with dimensions := ⟨2 * r, 2 * r, 2 * r⟩ }]
    | none =>
      [{ Obj.fresh link.name with
           scale := ⟨1 / 100, 1 / 100, 1 / 100⟩, data_materials := none }]
  visuals.map (fun v =>
    { v with location := link.xyz, rotation_mode := "QUATERNION",
             rotation_quaternion := link.rot })

/-- `URDFJoint.rescale_object` (lines 239-256): mesh scale multiplies the
object's scale; box/cylinder/sphere set its bounding dimensions; any other
geometry (including `None`) leaves the object alone. -/
def rescale_object (geometry : Option URDFGeometry) (obj : Obj) : Obj :=
  match geometry with
  | some (.mesh _ (some sc) _) =>
    { obj with scale := ⟨obj.scale.x * sc.x, obj.scale.y * sc.y,
                         obj.scale.z * sc.z⟩ }
  | some (.box size) => { obj with dimensions := size }
  | some (.cylinder r l) => { obj with dimensions := ⟨2 * r, 2 * r, l⟩ }
  | some (.sphere r) => { obj with dimensions := ⟨2 * r, 2 * r, 2 * r⟩ }
  | _ => obj

/-! ## Pass 2 — scene state and `build_objectmode` -/

/-- A Blender pose bone (`armature.pose.bones[n]`), with the channels the
importer locks/configures, at their host defaults. -/
structure PoseBone where
  lock_location : Bool × Bool × Bool
  lock_rotation : Bool × Bool × Bool
  lock_scale : Bool × Bool × Bool
  lock_ik_x : Bool
  lock_ik_y : Bool
  lock_ik_z : Bool
  use_ik_limit_x : Bool
  use_ik_limit_y : Bool
  use_ik_limit_z : Bool
  ik_min_x : ℚ
  ik_max_x : ℚ
  ik_min_y : ℚ
  ik_max_y : ℚ
  ik_min_z : ℚ
  ik_max_z : ℚ
deriving DecidableEq, Repr

/-- A freshly created pose bone (all channels free, limits zero). -/
def PoseBone.fresh : PoseBone :=
  ⟨(false, false, false), (false, false, false), (false, false, false),
   false, false, false, false, false, false, 0, 0, 0, 0, 0, 0⟩

/-- The mutable host scene the import writes into: the armature's data
bones and pose bones, the scene objects, the host material store and the
console output. -/
structure Scene where
  name : String
  dataBones : List EditBone
  poseBones : List (String × PoseBone)
  objects : List Obj
  matStore : List HostMat
  logs : List String
deriving DecidableEq, Repr

/-- `armature.data.bones[n]` (first bone of that name, `none` = `KeyError`). -/
def Scene.findBone (s : Scene) (n : String) : Option EditBone :=
  s.dataBones.find? (fun b => b.name == n)

/-- `armature.pose.bones[n]` (`none` = `KeyError`). -/
def Scene.findPose (s : Scene) (n : String) : Option PoseBone :=
  (s.poseBones.find? (fun p => p.1 == n)).map Prod.snd

/-- Write back a mutated pose bone (first entry of that name). -/
def set_pose_list : List (String × PoseBone) → String → PoseBone →
    List (String × PoseBone)
  | [], _, _ => []
  | p :: ps, n, pb =>
    if p.1 == n then (p.1, pb) :: ps else p :: set_pose_list ps n pb

/-- Write back a mutated pose bone into the scene. -/
def Scene.setPose (s : Scene) (n : String) (pb : PoseBone) : Scene :=
  { s with poseBones := set_pose_list s.poseBones n pb }

/-- `armature.data.bones[n].use_relative_parent = True` (line 234). -/
def set_rel_parent : List EditBone → String → List EditBone
  | [], _ => []
  | b :: bs, n =>
    if b.name == n then { b with use_relative_parent := true } :: bs
    else b :: set_rel_parent bs n

/-- Lines 163-165: initially lock all three IK axes. -/
def init_ik_locks (pb : PoseBone) : PoseBone :=
  { pb with lock_ik_x := true, lock_ik_y := true, lock_ik_z := true }

/-- `URDFJoint.configure_joint` (lines 174-201): without an axis, nothing
is configured; otherwise the first nonzero component in x,y,z order gets
its IK lock released and limit enforcement enabled, and the declared limit
bounds when a limit exists. -/
def configure_joint (j : URDFJoint) (pb : PoseBone) : PoseBone :=
  match j.axis with
  | none => pb
  | some a =>
    if a.x ≠ 0 then
      let pb1 := { pb with lock_ik_x := false, use_ik_limit_x := true }
      match j.limit with
      | some l => { pb1 with ik_max_x := l.upper, ik_min_x := l.lower }
      | none => pb1
    else if a.y ≠ 0 then
      let pb1 := { pb with lock_ik_y := false, use_ik_limit_y := true }
      match j.limit with
      | some l => { pb1 with ik_max_y := l.upper, ik_min_y := l.lower }
      | none => pb1
    else if a.z ≠ 0 then
      let pb1 := { pb with lock_ik_z := false, use_ik_limit_z := true }
      match j.limit with
      | some l => { pb1 with ik_max_z := l.upper, ik_min_z := l.lower }
      | none => pb1
    else pb

/-- The per-object body of the `for v in visuals:` loop of
`add_link_frame` (lines 218-237): align the object to the target bone's
rest matrix (`KeyError` if the bone is missing), apply the offset
(`rot * xyz` when both are supplied, bare `xyz` when only it is), reset the
orientation to the link's own, rescale, resolve the material, and parent
the object to the bone with bone-relative parenting. -/
def process_visuals (reg : List (String × MatEntry)) (link : URDFLink)
    (jn : String) (xyz : Option Vec3) (rot : Option Quat) (s : Scene) :
    List Obj → Except PyErr Scene
  | [] => .ok s
  | v :: vs => do
    match s.findBone jn with
    | none => .error (.keyError jn)
    | some bone =>
      let v1 := { v with location := bone.matrix_local.loc,
                         rotation_quaternion := bone.matrix_local.rot,
                         scale := bone.matrix_local.scl }
      let v2 := match xyz, rot with
        | some t, some q => { v1 with location := v1.location + qrot q t }
        | some t, none => { v1 with location := v1.location + t }
        | _, _ => v1
      let v3 := { v2 with rotation_quaternion := link.rot }
      let v4 := rescale_object (link.visual.bind URDFVisual.geometry) v3
      let (store1, v5, lgs) ← URDFJoint.add_material reg s.matStore link v4
      let s1 := { s with matStore := store1, logs := s.logs ++ lgs,
                         dataBones := set_rel_parent s.dataBones jn }
      let v6 := { v5 with parent := some s.name, parent_bone := some jn,
                          parent_type := "BONE" }
      let s2 := { s1 with objects := s1.objects ++ [v6] }
      process_visuals reg link jn xyz rot s2 vs

/-- `URDFJoint.add_link_frame` (lines 203-237): nothing to do without a
visual; otherwise instantiate the link's geometry and process every
produced object against the target bone — the joint's own bone unless a
`joint` argument redirects to another (the fixed-leaf case). -/
def add_link_frame (reg : List (String × MatEntry)) (selfName : String)
    (link : URDFLink) (jointName : Option String) (xyz : Option Vec3)
    (rot : Option Quat) (s : Scene) : Except PyErr Scene :=
  match link.visual with
  | none => .ok s
  | some _ =>
    process_visuals reg link (jointName.getD selfName) xyz rot s
      (create_objects_by_link link)

mutual

/-- `URDFJoint.build_objectmode` (lines 127-172).  A childless `fixed`
joint attaches its link's visuals to the parent bone (nothing at all
without a parent) and stops.  Any other node fetches its pose bone — a
missing bone is caught, printed and skipped —, locks location/rotation/
scale when it has children, locks the three IK axes, configures the joint,
attaches its own link frame and recurses. -/
def build_objectmode (reg : List (String × MatEntry)) (j : URDFJoint)
    (parent : Option URDFJoint) (s : Scene) : Except PyErr Scene :=
  match j with
  | .mk n _t _xyz _rot lk _ax _lim children =>
    if children.isEmpty && (j.type == FIXED) then
      match parent with
      | none => .ok s
      | some p =>
        add_link_frame reg n lk (some p.name) (some j.xyz) (some j.rot) s
    else
      match s.findPose n with
      | none =>
        .ok { s with logs := s.logs ++
                ["Error: bone " ++ n ++ " not yet added to the armature"] }
      | some pb =>
        let pb1 :=
          if children.isEmpty then pb
          else { pb with lock_location := (true, true, true),
                         lock_rotation := (true, true, true),
                         lock_scale := (true, true, true) }
        let pb3 := configure_joint j (init_ik_locks pb1)
        let s1 := Scene.setPose s n pb3
        do
          let s2 ← add_link_frame reg n lk none none none s1
          build_objectmode_list reg children (some j) s2

/-- The `for child in self.children: child.build_objectmode(armature, self)`
loop of `build_objectmode`. -/
def build_objectmode_list (reg : List (String × MatEntry))
    (js : List URDFJoint) (parent : Option URDFJoint) (s : Scene) :
    Except PyErr Scene :=
  match js with
  | [] => .ok s
  | c :: cs => do
    let s1 ← build_objectmode reg c parent s
    build_objectmode_list reg cs parent s1

end

/-! ## `URDF.build` (lines 350-376) -/

/-- The freshly added armature object: empty scene state around the host's
persistent material store. -/
def scene_init (name : String) (store : List HostMat) : Scene :=
  ⟨name, [], [], [], store, []⟩

/-- The `for root in self.roots: root.build_editmode(ob)` loop. -/
def pass1_bones : List URDFJoint → List EditBone
  | [] => []
  | r :: rs => build_editmode r none ++ pass1_bones rs

/-- Pass 1 over all roots: every created bone enters the armature. -/
def pass1 (roots : List URDFJoint) (s : Scene) : Scene :=
  { s with dataBones := s.dataBones ++ pass1_bones roots }

/-- Lines 367-372: if the base link has a visual, instantiate it and parent
every produced object to the armature object with `ARMATURE` parenting. -/
def base_link_step (base : URDFLink) (s : Scene) : Scene :=
  match base.visual with
  | some _ =>
    let vs := (create_objects_by_link base).map (fun v =>
      { v with parent := some s.name, parent_type := "ARMATURE" })
    { s with objects := s.objects ++ vs }
  | none => s

/-- `bpymorse.mode_set(mode='OBJECT')`: leaving edit mode materialises one
fresh pose bone per data bone. -/
def mode_set_object (s : Scene) : Scene :=
  { s with poseBones := s.dataBones.map (fun b => (b.name, PoseBone.fresh)) }

/-- The `for root in self.roots: root.build_objectmode(ob)` loop. -/
def pass2 (reg : List (String × MatEntry)) (roots : List URDFJoint)
    (s : Scene) : Except PyErr Scene :=
  build_objectmode_list reg roots none s

/-- `URDF.build` (lines 350-376): armature creation, pass 1 from each
root, the base-link visuals, the switch to object mode, then pass 2. -/
def URDF.build (reg : List (String × MatEntry)) (base : URDFLink)
    (roots : List URDFJoint) (name : String) (store : List HostMat) :
    Except PyErr Scene :=
  pass2 reg roots (mode_set_object (base_link_step base
    (pass1 roots (scene_init name store))))

/-! ## Claims -/

/-- Claim C2: the link record's derived origin obeys the fixed precedence
inertial > collision > visual > identity — the inertial origin wins
whenever an inertial element carries one, else the collision origin, else
the visual origin, else the zero vector and identity quaternion — and
`URDFLink.make` is a total function, so construction never fails. -/
theorem claim_C2 (l : URDFLinkIn) :
    (∀ o, l.inertial.bind URDFInertial.origin = some o →
      (URDFLink.make l).xyz = o.xyz ∧
      (URDFLink.make l).rot = o.rpy.to_quaternion) ∧
    (∀ o, l.inertial.bind URDFInertial.origin = none →
      l.collision.bind URDFCollision.origin = some o →
      (URDFLink.make l).xyz = o.xyz ∧
      (URDFLink.make l).rot = o.rpy.to_quaternion) ∧
    (∀ o, l.inertial.bind URDFInertial.origin = none →
      l.collision.bind URDFCollision.origin = none →
      l.visual.bind URDFVisual.origin = some o →
      (URDFLink.make l).xyz = o.xyz ∧
      (URDFLink.make l).rot = o.rpy.to_quaternion) ∧
    (l.inertial.bind URDFInertial.origin = none →
      l.collision.bind URDFCollision.origin = none →
      l.visual.bind URDFVisual.origin = none →
      (URDFLink.make l).xyz = ⟨0, 0, 0⟩ ∧
      (URDFLink.make l).rot = Quat.one) := by
  refine ⟨fun o h1 => ?_, fun o h1 h2 => ?_, fun o h1 h2 h3 => ?_,
          fun h1 h2 h3 => ?_⟩ <;>
    simp [URDFLink.make, h1, Euler3.zero_to_quaternion]
  · simp [h2]
  · simp [h2, h3]
  · simp [h2, h3, Euler3.zero_to_quaternion]

/-- A sample inertial-origin pose for the C2 witness. -/
def poseC2 : URDFPose := ⟨⟨1, 2, 3⟩, ⟨⟨0, 1⟩, ⟨1, 0⟩, ⟨1, 0⟩⟩⟩

/-- A sample link whose inertial, collision and visual all carry distinct
origins. -/
def linkC2 : URDFLinkIn :=
  ⟨"base",
   some ⟨some poseC2⟩,
   some ⟨some ⟨⟨7, 7, 7⟩, Euler3.zero⟩, none, none⟩,
   some ⟨some ⟨⟨9, 9, 9⟩, Euler3.zero⟩⟩⟩

/-- Witness for C2: on `linkC2` the inertial origin wins. -/
theorem claim_C2_witness :
    (URDFLink.make linkC2).xyz = poseC2.xyz ∧
    (URDFLink.make linkC2).rot = poseC2.rpy.to_quaternion :=
  (claim_C2 linkC2).1 poseC2 rfl

/-- Claim C4: with no axis, `configure_joint` configures nothing and the
three initially locked IK axes stay locked; with an axis, the first
nonzero component in x,y,z order is the only one unlocked, with limit
enforcement enabled, taking the declared limit's lower/upper bounds when a
limit exists while the other two axes remain locked. -/
theorem claim_C4 (j : URDFJoint) (pb : PoseBone) :
    (j.axis = none →
      configure_joint j (init_ik_locks pb) = init_ik_locks pb ∧
      (configure_joint j (init_ik_locks pb)).lock_ik_x = true ∧
      (configure_joint j (init_ik_locks pb)).lock_ik_y = true ∧
      (configure_joint j (init_ik_locks pb)).lock_ik_z = true) ∧
    (∀ a, j.axis = some a → a.x ≠ 0 →
      (configure_joint j (init_ik_locks pb)).lock_ik_x = false ∧
      (configure_joint j (init_ik_locks pb)).use_ik_limit_x = true ∧
      (configure_joint j (init_ik_locks pb)).lock_ik_y = true ∧
      (configure_joint j (init_ik_locks pb)).lock_ik_z = true ∧
      ∀ l, j.limit = some l →
        (configure_joint j (init_ik_locks pb)).ik_min_x = l.lower ∧
        (configure_joint j (init_ik_locks pb)).ik_max_x = l.upper) ∧
    (∀ a, j.axis = some a → a.x = 0 → a.y ≠ 0 →
      (configure_joint j (init_ik_locks pb)).lock_ik_y = false ∧
      (configure_joint j (init_ik_locks pb)).use_ik_limit_y = true ∧
      (configure_joint j (init_ik_locks pb)).lock_ik_x = true ∧
      (configure_joint j (init_ik_locks pb)).lock_ik_z = true ∧
      ∀ l, j.limit = some l →
        (configure_joint j (init_ik_locks pb)).ik_min_y = l.lower ∧
        (configure_joint j (init_ik_locks pb)).ik_max_y = l.upper) ∧
    (∀ a, j.axis = some a → a.x = 0 → a.y = 0 → a.z ≠ 0 →
      (configure_joint j (init_ik_locks pb)).lock_ik_z = false ∧
      (configure_joint j (init_ik_locks pb)).use_ik_limit_z = true ∧
      (configure_joint j (init_ik_locks pb)).lock_ik_x = true ∧
      (configure_joint j (init_ik_locks pb)).lock_ik_y = true ∧
      ∀ l, j.limit = some l →
        (configure_joint j (init_ik_locks pb)).ik_min_z = l.lower ∧
        (configure_joint j (init_ik_locks pb)).ik_max_z = l.upper) := by
  refine ⟨fun h => ?_, fun a h hx => ?_, fun a h hx hy => ?_,
          fun a h hx hy hz => ?_⟩
  · simp [configure_joint, h, init_ik_locks]
  · cases hl : j.limit <;>
      simp [configure_joint, h, hx, hl, init_ik_locks]
  · cases hl : j.limit <;>
      simp [configure_joint, h, hx, hy, hl, init_ik_locks]
  · cases hl : j.limit <;>
      simp [configure_joint, h, hx, hy, hz, hl, init_ik_locks]

/-- A revolute joint with axis `(1,0,0)` and limit `(-1, 1)` for the C4
witness. -/
def jointC4 : URDFJoint :=
  .mk "j" "revolute" ⟨0, 0, 0⟩ Quat.one
    (URDFLink.make ⟨"l", none, none, none⟩) (some ⟨1, 0, 0⟩)
    (some ⟨-1, 1⟩) []

/-- Witness for C4: the axis-`(1,0,0)`, limit-`(-1,1)` joint of the claim
gets exactly the x axis unlocked with bounds `(-1, 1)`. -/
theorem claim_C4_witness :
    (configure_joint jointC4 (init_ik_locks PoseBone.fresh)).lock_ik_x
      = false ∧
    (configure_joint jointC4 (init_ik_locks PoseBone.fresh)).use_ik_limit_x
      = true ∧
    (configure_joint jointC4 (init_ik_locks PoseBone.fresh)).ik_min_x
      = -1 ∧
    (configure_joint jointC4 (init_ik_locks PoseBone.fresh)).ik_max_x
      = 1 ∧
    (configure_joint jointC4 (init_ik_locks PoseBone.fresh)).lock_ik_y
      = true ∧
    (configure_joint jointC4 (init_ik_locks PoseBone.fresh)).lock_ik_z
      = true := by
  have h := (claim_C4 jointC4 PoseBone.fresh).2.1 ⟨1, 0, 0⟩ rfl
    (by norm_num)
  have hl := h.2.2.2.2 ⟨-1, 1⟩ rfl
  exact ⟨h.1, h.2.1, hl.1, hl.2, h.2.2.1, h.2.2.2.1⟩

/-- Claim C9: material creation is deduplicated per name.  A registry
insert under an already-present name returns the registry unchanged (first
writer wins); fetching-or-creating a host material of a present name leaves
the store unchanged, of an absent name appends exactly one entry; and a
second fetch-or-create of the same name is a no-op, so any number of
resolutions creates at most one host material. -/
theorem claim_C9 (reg : List (String × MatEntry)) (m : URDFMaterialIn)
    (store : List HostMat) (n : String) :
    ((reg.find? (fun e => e.1 == m.name)).isSome →
      add_material reg m = reg) ∧
    ((store.find? (fun mt => mt.name == n)).isSome →
      get_material_or_new store n = store) ∧
    (store.find? (fun mt => mt.name == n) = none →
      get_material_or_new store n = store ++ [⟨n, none⟩]) ∧
    get_material_or_new (get_material_or_new store n) n
      = get_material_or_new store n := by
  refine ⟨fun h => ?_, fun h => ?_, fun h => ?_, ?_⟩
  · simp [add_material, h]
  · obtain ⟨e, he⟩ := Option.isSome_iff_exists.mp h
    simp [get_material_or_new, he]
  · simp [get_material_or_new, h]
  · cases h : store.find? (fun mt => mt.name == n) with
    | some e => simp [get_material_or_new, h]
    | none => simp [get_material_or_new, h, List.find?_append]

/-- A host store already holding a material named "red", for the C9
witness. -/
def storeC9 : List HostMat := [⟨"red", some (1, 0, 0)⟩]

/-- A registry already holding an entry named "red". -/
def regC9 : List (String × MatEntry) := [("red", ⟨some (1, 0, 0, 1), none⟩)]

/-- Witness for C9: re-inserting "red" (with a different color) leaves the
registry unchanged, and fetching "red" again leaves the store unchanged. -/
theorem claim_C9_witness :
    add_material regC9 ⟨"red", some ⟨some (0, 1, 0, 1)⟩, none⟩ = regC9 ∧
    get_material_or_new storeC9 "red" = storeC9 :=
  ⟨(claim_C9 regC9 ⟨"red", some ⟨some (0, 1, 0, 1)⟩, none⟩ storeC9 "red").1
      (by decide),
   (claim_C9 regC9 ⟨"red", some ⟨some (0, 1, 0, 1)⟩, none⟩ storeC9 "red").2.1
      (by decide)⟩

/-- Claim C8 (amended): material resolution.  A material with its own
local color or texture never reads the registry — the result of
`add_material` is the same for every registry.  When a local color with an
rgba is declared, that color is used (assigned to the object and the host
material).  A local *texture*, however, is never used: texture support is
unimplemented, and a material declaring a texture but no color leaves
`rgba` as `None`, so resolving it against a material-bearing object raises
an uncaught `TypeError` at line 301.  A bare global reference whose name
is missing from the registry fails softly: the call returns `.ok` (no
exception) with the object and store untouched and just a log message. -/
theorem claim_C8 (link : URDFLink) (vis : URDFVisual)
    (material : URDFMaterialIn) (hv : link.visual = some vis)
    (hm : vis.material = some material) :
    ((material.color.isSome || material.texture.isSome) = true →
      ∀ reg reg' store obj,
        URDFJoint.add_material reg store link obj
          = URDFJoint.add_material reg' store link obj) ∧
    (∀ c ms reg store obj, material.name ≠ "" →
      material.color = some ⟨some c⟩ → obj.data_materials = some ms →
      URDFJoint.add_material reg store link obj
        = .ok (set_diffuse (get_material_or_new store material.name)
                 material.name (c.1, c.2.1, c.2.2.1),
               { obj with data_materials := some (ms ++ [material.name]) },
               [])) ∧
    (∀ tx ms reg store obj, material.name ≠ "" →
      material.color = none → material.texture = some tx →
      obj.data_materials = some ms →
      URDFJoint.add_material reg store link obj
        = .error PyErr.typeError) ∧
    (material.color = none → material.texture = none →
      material.name ≠ "" →
      ∀ reg store obj, MATERIALS_find reg material.name = none →
        URDFJoint.add_material reg store link obj
          = .ok (store, obj,
                 ["Global material not found: " ++ material.name])) := by
  refine ⟨fun hloc reg reg' store obj => ?_,
          fun c ms reg store obj hn hc hms => ?_,
          fun tx ms reg store obj hn hc htx hms => ?_,
          fun hc ht hn reg store obj hfind => ?_⟩
  · simp only [URDFJoint.add_material, hv, hm, hloc, if_true]
  · have hn' : (material.name == "") = false := by
      simpa using hn
    simp [URDFJoint.add_material, hv, hm, hc, hn', hms]
  · have hn' : (material.name == "") = false := by
      simpa using hn
    simp [URDFJoint.add_material, hv, hm, hc, htx, hn', hms]
  · have hn' : (material.name == "") = false := by
      simpa using hn
    simp [URDFJoint.add_material, hv, hm, hc, ht, hn', hfind]

/-- A visual whose material declares a local red color, for the C8
witness. -/
def visC8 : URDFVisual :=
  ⟨none, some (.box ⟨1, 1, 1⟩),
   some ⟨"local_red", some ⟨some (1, 0, 0, 1)⟩, none⟩⟩

/-- A link carrying `visC8`. -/
def linkC8 : URDFLink := ⟨"l", none, some visC8, none, ⟨0, 0, 0⟩, Quat.one⟩

/-- Witness for C8: the local material resolves identically against a
populated registry and the empty registry — the registry is never read. -/
theorem claim_C8_witness :
    URDFJoint.add_material regC9 [] linkC8 (Obj.fresh "o")
      = URDFJoint.add_material [] [] linkC8 (Obj.fresh "o") :=
  (claim_C8 linkC8 visC8 ⟨"local_red", some ⟨some (1, 0, 0, 1)⟩, none⟩
      rfl rfl).1 (by decide) regC9 [] [] (Obj.fresh "o")

/-- A visual whose material declares only a local texture (no color). -/
def visC8tex : URDFVisual :=
  ⟨none, some (.box ⟨1, 1, 1⟩),
   some ⟨"tex_only", none, some ⟨"foo.png"⟩⟩⟩

/-- A link carrying `visC8tex`. -/
def linkC8tex : URDFLink :=
  ⟨"lt", none, some visC8tex, none, ⟨0, 0, 0⟩, Quat.one⟩

/-- Counterexample to claim C8 as stated: for a material declaring only a
local texture, the local value is *not* used — resolution against an
ordinary mesh object ends in an uncaught `TypeError` (`rgba` is `None` at
line 301, and `except AttributeError` does not catch it), so no value is
assigned and the import aborts rather than continuing. -/
theorem claim_C8_counterexample :
    URDFJoint.add_material [] [] linkC8tex (Obj.fresh "o")
      = .error PyErr.typeError := by
  simp +decide [URDFJoint.add_material, linkC8tex, visC8tex, Obj.fresh,
    get_material_or_new]

/-! ## Claim C1 — the rest-pose head formula -/

mutual

/-- Spec-side definition, following the words of claim C1: a parented
node's head is the parent chain's accumulated world orientation applied to
the node's local position plus the parent head; a root's head is its own
orientation applied to its local position.  `acc` carries the accumulated
ancestor orientation. -/
def spec_heads_C1 (j : URDFJoint) (acc : Option Quat) (ph : Option Vec3) :
    List (String × Vec3) :=
  match j with
  | .mk n _t xyz rot _lk _ax _lim children =>
    match acc, ph with
    | some a, some h0 =>
      let h := qrot a xyz + h0
      (n, h) :: spec_heads_C1_list children (some (a.mul rot)) (some h)
    | _, _ =>
      let h := qrot rot xyz
      (n, h) :: spec_heads_C1_list children (some rot) (some h)

/-- Children of `spec_heads_C1`, in order. -/
def spec_heads_C1_list (js : List URDFJoint) (acc : Option Quat)
    (ph : Option Vec3) : List (String × Vec3) :=
  match js with
  | [] => []
  | c :: cs =>
    spec_heads_C1 c acc ph ++ spec_heads_C1_list cs acc ph

end

mutual

/-- Spec-side definition, following the words of the amended claim C1: a
parented node's head is its *own* local orientation applied to its local
position plus the parent bone's head; a root's head is its own orientation
applied to its local position. -/
def amended_heads_C1 (j : URDFJoint) (ph : Option Vec3) :
    List (String × Vec3) :=
  match j with
  | .mk n _t xyz rot _lk _ax _lim children =>
    let h : Vec3 := match ph with
      | some p => qrot rot xyz + p
      | none => qrot rot xyz
    (n, h) :: amended_heads_C1_list children (some h)

/-- Children of `amended_heads_C1`, in order. -/
def amended_heads_C1_list (js : List URDFJoint) (ph : Option Vec3) :
    List (String × Vec3) :=
  match js with
  | [] => []
  | c :: cs => amended_heads_C1 c ph ++ amended_heads_C1_list cs ph

end

mutual

/-- Pass 1 computes exactly the amended head formula, at every depth. -/
theorem editmode_heads_eq (j : URDFJoint) (pb : Option EditBone) :
    (build_editmode j pb).map (fun b => (b.name, b.head))
      = amended_heads_C1 j (pb.map EditBone.head) := by
  match j with
  | .mk n t xyz rot lk ax lim children =>
    cases pb with
    | none =>
      have ih := editmode_heads_eq_list children
        (some ⟨n, none, qrot rot xyz,
               qrot rot ⟨0, 0, EPSILON⟩ + qrot rot xyz,
               boneRestMatrix (qrot rot xyz), false⟩)
      simpa [build_editmode, amended_heads_C1] using ih
    | some pbv =>
      have ih := editmode_heads_eq_list children
        (some ⟨n, some pbv.name, qrot rot xyz + pbv.head,
               qrot rot ⟨0, 0, EPSILON⟩ + (qrot rot xyz + pbv.head),
               boneRestMatrix (qrot rot xyz + pbv.head), false⟩)
      simpa [build_editmode, amended_heads_C1] using ih

/-- List version of `editmode_heads_eq`. -/
theorem editmode_heads_eq_list (js : List URDFJoint) (pb : Option EditBone) :
    (build_editmode_list js pb).map (fun b => (b.name, b.head))
      = amended_heads_C1_list js (pb.map EditBone.head) := by
  match js with
  | [] => simp [build_editmode_list, amended_heads_C1_list]
  | c :: cs =>
    have ih1 := editmode_heads_eq c pb
    have ih2 := editmode_heads_eq_list cs pb
    simp [build_editmode_list, amended_heads_C1_list, ih1, ih2]

end

/-- A link with nothing but a name, shared by the concrete trees below. -/
def linkPlain : URDFLink := URDFLink.make ⟨"plain", none, none, none⟩

/-- A child joint translated by `(1,0,0)` with identity orientation. -/
def jointC1child : URDFJoint :=
  .mk "c1c" "revolute" ⟨1, 0, 0⟩ Quat.one linkPlain none none []

/-- A root joint at `(0,0,1)` rotated 180 degrees about z (quaternion
`(0,0,0,1)`), with `jointC1child` under it. -/
def jointC1root : URDFJoint :=
  .mk "c1r" "revolute" ⟨0, 0, 1⟩ ⟨0, 0, 0, 1⟩ linkPlain none none
    [jointC1child]

/-- Counterexample to claim C1 as stated: on the two-joint chain
`jointC1root`, pass 1 places the child bone's head at the child's *own*
orientation (the identity) applied to its local position plus the parent
head, `(1,0,1)` — not at the parent chain's accumulated orientation applied
to it, which would give `(-1,0,1)`. -/
theorem claim_C1_counterexample :
    (build_editmode jointC1root none).map (fun b => (b.name, b.head))
        ≠ spec_heads_C1 jointC1root none none ∧
    (build_editmode jointC1root none).map (fun b => (b.name, b.head))
        = [("c1r", ⟨0, 0, 1⟩), ("c1c", ⟨1, 0, 1⟩)] ∧
    spec_heads_C1 jointC1root none none
        = [("c1r", ⟨0, 0, 1⟩), ("c1c", ⟨-1, 0, 1⟩)] := by
  refine ⟨?_, ?_, ?_⟩ <;>
    norm_num [build_editmode, build_editmode_list, spec_heads_C1,
      spec_heads_C1_list, jointC1root, jointC1child, linkPlain, qrot,
      Quat.mul, Quat.conj, Quat.one, Vec3.add_def, Prod.ext_iff]

/-- Claim C1 (amended): for every node of every tree, the bone pass 1
creates has its head at the node's own `local_orientation` applied to its
`local_position`, plus the parent bone's head when a parent bone exists —
for roots just the own orientation applied to the local position
(`amended_heads_C1` spells out this formula; the equality covers every
bone the pass emits). -/
theorem claim_C1 (j : URDFJoint) (pb : Option EditBone) :
    (build_editmode j pb).map (fun b => (b.name, b.head))
      = amended_heads_C1 j (pb.map EditBone.head) :=
  editmode_heads_eq j pb

/-! ## Claim C6 — bone length is always EPSILON -/

mutual

/-- Every orientation in the tree is a unit quaternion (as every quaternion
produced by the host's Euler conversion is). -/
def all_rots_unit (j : URDFJoint) : Bool :=
  match j with
  | .mk _n _t _xyz rot _lk _ax _lim children =>
    (rot.normSq == 1) && all_rots_unit_list children

/-- List version of `all_rots_unit`. -/
def all_rots_unit_list (js : List URDFJoint) : Bool :=
  match js with
  | [] => true
  | c :: cs => all_rots_unit c && all_rots_unit_list cs

end

theorem Vec3.add_comm' (a b : Vec3) : a + b = b + a := by
  cases a
  cases b
  simp only [Vec3.add_def]
  ring_nf

theorem Vec3.add_sub_cancel' (a b : Vec3) : a + b - b = a := by
  cases a
  cases b
  simp only [Vec3.add_def, Vec3.sub_def]
  ring_nf

theorem epsVec_normSq : Vec3.normSq ⟨0, 0, EPSILON⟩ = EPSILON ^ 2 := by
  simp [Vec3.normSq]

mutual

/-- Every bone of a tree of unit orientations has
`tail = head + q * (0,0,EPSILON)` for a unit `q`, hence squared length
`EPSILON ^ 2`. -/
theorem editmode_tail_eps (j : URDFJoint) (pb : Option EditBone)
    (h : all_rots_unit j = true) :
    ∀ b ∈ build_editmode j pb, ∃ q : Quat, q.normSq = 1 ∧
      b.tail = b.head + qrot q ⟨0, 0, EPSILON⟩ ∧
      (b.tail - b.head).normSq = EPSILON ^ 2 := by
  match j with
  | .mk n t xyz rot lk ax lim children =>
    simp only [all_rots_unit, Bool.and_eq_true, beq_iff_eq] at h
    intro b hb
    simp only [build_editmode, List.mem_cons] at hb
    rcases hb with hb | hb
    · subst hb
      refine ⟨rot, h.1, ?_, ?_⟩
      · exact Vec3.add_comm' (qrot rot ⟨0, 0, EPSILON⟩) _
      · rw [Vec3.add_sub_cancel', qrot_normSq, h.1, epsVec_normSq]
        ring
    · exact editmode_tail_eps_list children _ h.2 b hb

/-- List version of `editmode_tail_eps`. -/
theorem editmode_tail_eps_list (js : List URDFJoint) (pb : Option EditBone)
    (h : all_rots_unit_list js = true) :
    ∀ b ∈ build_editmode_list js pb, ∃ q : Quat, q.normSq = 1 ∧
      b.tail = b.head + qrot q ⟨0, 0, EPSILON⟩ ∧
      (b.tail - b.head).normSq = EPSILON ^ 2 := by
  match js with
  | [] => intro b hb; simp only [build_editmode_list] at hb; cases hb
  | c :: cs =>
    simp only [all_rots_unit_list, Bool.and_eq_true] at h
    intro b hb
    simp only [build_editmode_list, List.mem_append] at hb
    rcases hb with hb | hb
    · exact editmode_tail_eps c pb h.1 b hb
    · exact editmode_tail_eps_list cs pb h.2 b hb

end

/-- Claim C6: when every orientation in the tree is a unit quaternion (as
the host's Euler conversion guarantees), every bone pass 1 creates — at any
depth — satisfies `tail = head + q * (0,0,EPSILON)` for a unit quaternion
`q`, so the squared Euclidean length of `tail - head` is exactly
`EPSILON ^ 2`, i.e. the length is `EPSILON = 1e-5`. -/
theorem claim_C6 (j : URDFJoint) (pb : Option EditBone)
    (h : all_rots_unit j = true) :
    ∀ b ∈ build_editmode j pb, ∃ q : Quat, q.normSq = 1 ∧
      b.tail = b.head + qrot q ⟨0, 0, EPSILON⟩ ∧
      (b.tail - b.head).normSq = EPSILON ^ 2 :=
  editmode_tail_eps j pb h

/-- Witness for C6: the concrete two-bone chain `jointC1root` has unit
orientations, and the theorem applies to it. -/
theorem claim_C6_witness :
    all_rots_unit jointC1root = true ∧
    ∀ b ∈ build_editmode jointC1root none, ∃ q : Quat, q.normSq = 1 ∧
      b.tail = b.head + qrot q ⟨0, 0, EPSILON⟩ ∧
      (b.tail - b.head).normSq = EPSILON ^ 2 := by
  have hu : all_rots_unit jointC1root = true := by
    norm_num [all_rots_unit, all_rots_unit_list, jointC1root, jointC1child,
      Quat.normSq, Quat.one]
  exact ⟨hu, claim_C6 jointC1root none hu⟩

/-! ## Claim C5 — missing pose bone in pass 2 -/

/-- Claim C5 (amended): every node that is not a childless fixed joint
resolves its pose bone by the joint's name; when no bone of that name
exists, the `KeyError` is caught — the node only prints an error line and
returns, leaving the scene otherwise untouched and skipping its whole
subtree; no exception (in particular no `BoneNotFoundError`) escapes. -/
theorem claim_C5_amended (reg : List (String × MatEntry)) (j : URDFJoint)
    (parent : Option URDFJoint) (s : Scene)
    (hnf : (j.children.isEmpty && (j.type == FIXED)) = false)
    (hmiss : s.findPose j.name = none) :
    build_objectmode reg j parent s
      = .ok { s with logs := s.logs ++
          ["Error: bone " ++ j.name ++ " not yet added to the armature"] } := by
  match j with
  | .mk n t xyz rot lk ax lim children =>
    simp only [URDFJoint.children, URDFJoint.name] at hnf hmiss ⊢
    simp only [build_objectmode, hnf, hmiss, Bool.false_eq_true, if_false]

/-- A childless revolute joint, so pass 2 must resolve its pose bone. -/
def jointC5 : URDFJoint :=
  .mk "j5" "revolute" ⟨0, 0, 0⟩ Quat.one linkPlain none none []

/-- A scene with no pose bones at all. -/
def sceneC5 : Scene := ⟨"arm", [], [], [], [], []⟩

/-- Counterexample to claim C5 as stated: with no bone named "j5" in the
armature, pass 2 does not fail with `BoneNotFoundError` (or any error) —
it returns successfully, having only printed an error line. -/
theorem claim_C5_counterexample :
    build_objectmode [] jointC5 none sceneC5
        ≠ Except.error PyErr.boneNotFound ∧
    build_objectmode [] jointC5 none sceneC5
        = .ok { sceneC5 with
            logs := ["Error: bone j5 not yet added to the armature"] } := by
  constructor <;>
  · norm_num [build_objectmode, jointC5, sceneC5, Scene.findPose,
      URDFJoint.children, URDFJoint.name, URDFJoint.type, FIXED]
    decide

/-- Witness for the amended C5: the theorem applied to the concrete
missing-bone situation. -/
theorem claim_C5_witness :
    build_objectmode [] jointC5 none sceneC5
      = .ok { sceneC5 with logs := sceneC5.logs ++
          ["Error: bone " ++ jointC5.name ++
            " not yet added to the armature"] } :=
  claim_C5_amended [] jointC5 none sceneC5 (by decide) rfl

/-! ## Claim C3 — no `MalformedTreeError` exists in the walk -/

/-- `link_pairs` can only fail with a `KeyError`. -/
theorem link_pairs_not_malformed (doc : URDFDoc) :
    ∀ js, link_pairs doc js ≠ Except.error PyErr.malformedTree := by
  intro js
  induction js with
  | nil => simp [link_pairs]
  | cons j js ih =>
    simp only [link_pairs]
    cases h : doc.link_map j.child with
    | none => simp
    | some cl =>
      cases hr : link_pairs doc js with
      | error e =>
        simp only [bind, Except.bind, hr]
        intro hE
        injection hE with h2
        exact ih (by rw [hr, h2])
      | ok rest => simp [bind, Except.bind, hr]

/-- The walk itself never produces a malformed-tree error (there is no
such check): only `KeyError` or recursion exhaustion can occur. -/
theorem walk_urdf_not_malformed (fuel : Nat) (doc : URDFDoc) :
    ∀ link, walk_urdf fuel doc link ≠ Except.error PyErr.malformedTree := by
  induction fuel with
  | zero => intro link; simp [walk_urdf]
  | succ f ih =>
    have hconns : ∀ l, walk_conns f doc l
        ≠ Except.error PyErr.malformedTree := by
      intro l
      induction l with
      | nil => simp [walk_conns]
      | cons p rest ihl =>
        obtain ⟨j, cl⟩ := p
        simp only [walk_conns]
        cases hk : walk_urdf f doc cl with
        | error e =>
          simp only [bind, Except.bind, hk]
          intro hE
          injection hE with h2
          exact ih cl (by rw [hk, h2])
        | ok kids =>
          simp only [bind, Except.bind, hk]
          cases ho : walk_conns f doc rest with
          | error e =>
            simp only [ho]
            intro hE
            injection hE with h2
            exact ihl (by rw [ho, h2])
          | ok others => simp [ho]
    intro link
    simp only [walk_urdf]
    cases hc : get_urdf_connections doc link with
    | error e =>
      simp only [get_urdf_connections] at hc
      simp only [bind, Except.bind, get_urdf_connections, hc]
      intro hE
      injection hE with h2
      exact link_pairs_not_malformed doc _ (by rw [hc, h2])
    | ok conns =>
      simp only [bind, Except.bind, get_urdf_connections, hc]
      exact hconns conns

/-- Claim C3 (amended): the tree builder performs no connectivity check and
can never fail with a malformed-tree error — a joint whose declared parent
link is unreachable from the root is silently dropped, so the root list may
be empty (and the build proceed) while joints exist. -/
theorem claim_C3 (doc : URDFDoc) :
    URDF.roots doc ≠ Except.error PyErr.malformedTree := by
  simp only [URDF.roots]
  cases h : doc.link_map doc.root with
  | none => simp
  | some rl =>
    simp only []
    exact walk_urdf_not_malformed _ doc rl

/-- A document whose only joint hangs under the link "ghost", which no
joint chain connects to the root "a". -/
def docC3 : URDFDoc :=
  ⟨[⟨"j_orphan", "revolute", none, none, none, "ghost", "b"⟩],
   [⟨"a", none, none, none⟩, ⟨"ghost", none, none, none⟩,
    ⟨"b", none, none, none⟩],
   [], "a"⟩

/-- Counterexample to claim C3 as stated: on `docC3` the walk returns
successfully with an *empty* root list although a joint exists — the
orphaned joint is silently dropped and no `MalformedTreeError` (indeed no
error at all) is raised. -/
theorem claim_C3_counterexample :
    URDF.roots docC3 = .ok [] ∧ docC3.joints ≠ [] := by
  constructor
  · simp +decide [URDF.roots, docC3, URDFDoc.link_map, walk_urdf,
      get_urdf_connections, link_pairs, walk_conns, bind, Except.bind]
  · simp [docC3]

/-- Witness for the amended C3: the theorem applied to `docC3`. -/
theorem claim_C3_witness :
    URDF.roots docC3 ≠ Except.error PyErr.malformedTree :=
  claim_C3 docC3

/-! ## Claim C7 — fixed leaf joints -/

/-- `URDFJoint.add_material` never moves or reparents the object. -/
theorem add_material_fields (reg : List (String × MatEntry))
    (store : List HostMat) (link : URDFLink) (o : Obj)
    (st : List HostMat) (o' : Obj) (lg : List String)
    (h : URDFJoint.add_material reg store link o = .ok (st, o', lg)) :
    o'.location = o.location ∧ o'.parent_bone = o.parent_bone ∧
      o'.parent_type = o.parent_type := by
  unfold URDFJoint.add_material at h
  cases hv : link.visual with
  | none => simp only [hv] at h; cases h; exact ⟨rfl, rfl, rfl⟩
  | some vis =>
    simp only [hv] at h
    cases hm : vis.material with
    | none => simp only [hm] at h; cases h; exact ⟨rfl, rfl, rfl⟩
    | some material =>
      simp only [hm] at h
      cases hn : (material.name == "") with
      | true => simp [hn] at h
      | false =>
        simp only [hn, Bool.false_eq_true, if_false] at h
        cases hloc : (material.color.isSome || material.texture.isSome) with
        | true =>
          simp only [hloc, if_true] at h
          cases hdm : o.data_materials with
          | none => simp only [hdm] at h; cases h; exact ⟨rfl, rfl, rfl⟩
          | some ms =>
            simp only [hdm] at h
            cases hc : material.color.bind URDFColor.rgba with
            | none => simp [hc] at h
            | some c =>
              simp only [hc] at h
              cases h
              exact ⟨rfl, rfl, rfl⟩
        | false =>
          simp only [hloc, Bool.false_eq_true, if_false] at h
          cases hf : MATERIALS_find reg material.name with
          | none => simp only [hf] at h; cases h; exact ⟨rfl, rfl, rfl⟩
          | some e =>
            simp only [hf] at h
            cases hdm : o.data_materials with
            | none => simp only [hdm] at h; cases h; exact ⟨rfl, rfl, rfl⟩
            | some ms =>
              simp only [hdm] at h
              cases hc : e.color with
              | none => simp [hc] at h
              | some c =>
                simp only [hc] at h
                cases h
                exact ⟨rfl, rfl, rfl⟩

/-- `rescale_object` never moves or reparents the object. -/
theorem rescale_fields (g : Option URDFGeometry) (o : Obj) :
    (rescale_object g o).location = o.location ∧
    (rescale_object g o).parent_bone = o.parent_bone ∧
    (rescale_object g o).parent_type = o.parent_type := by
  unfold rescale_object
  split <;> simp

/-- Setting `use_relative_parent` neither renames a bone nor changes its
rest matrix: the later lookups still find the same bone, relative-parent
flag aside. -/
theorem find_set_rel (bs : List EditBone) (n : String) :
    (set_rel_parent bs n).find? (fun b => b.name == n)
      = (bs.find? (fun b => b.name == n)).map
          (fun b => { b with use_relative_parent := true }) := by
  induction bs with
  | nil => simp [set_rel_parent]
  | cons b bs ih =>
    by_cases h : (b.name == n) = true
    · simp [set_rel_parent, h, List.find?]
    · simp only [Bool.not_eq_true] at h
      simp [set_rel_parent, h, List.find?, ih]


/-- The visual loop of `add_link_frame`, run with both an offset and an
orientation against an existing target bone: it leaves the pose bones and
the armature name alone and appends objects that are all bone-parented to
the target bone, placed at its rest position offset by the rotated
translation. -/
theorem process_visuals_ok (reg : List (String × MatEntry))
    (link : URDFLink) (jn : String) (t : Vec3) (q : Quat) :
    ∀ (vs : List Obj) (s s' : Scene) (bone : EditBone),
      s.findBone jn = some bone →
      process_visuals reg link jn (some t) (some q) s vs = .ok s' →
      s'.poseBones = s.poseBones ∧ s'.name = s.name ∧
      ∃ news, s'.objects = s.objects ++ news ∧
        ∀ o ∈ news, o.parent_bone = some jn ∧ o.parent_type = "BONE" ∧
          o.location = bone.matrix_local.loc + qrot q t := by
  intro vs
  induction vs with
  | nil =>
    intro s s' bone hb h
    simp only [process_visuals] at h
    cases h
    exact ⟨rfl, rfl, [], by simp, by simp⟩
  | cons v vs ih =>
    intro s s' bone hb h
    simp only [process_visuals, hb, bind, Except.bind] at h
    split at h
    · cases h
    · rename_i x heq
      obtain ⟨st, o5, lg⟩ := x
      have hfb2 :
          (Scene.findBone
            { s with matStore := st,
                     logs := s.logs ++ lg,
                     dataBones := set_rel_parent s.dataBones jn } jn)
          = some { bone with use_relative_parent := true } := by
        simp only [Scene.findBone, find_set_rel]
        rw [show s.dataBones.find? (fun b => b.name == jn)
              = some bone from hb]
        rfl
      obtain ⟨hpose, hname, news, hobjs, hprops⟩ :=
        ih _ s' { bone with use_relative_parent := true } (by
          simpa using hfb2) h
      refine ⟨hpose, hname,
        { o5 with parent := some s.name, parent_bone := some jn,
                  parent_type := "BONE" } :: news, ?_, ?_⟩
      · rw [hobjs]
        simp
      · intro o ho
        rcases List.mem_cons.mp ho with ho | ho
        · subst ho
          refine ⟨rfl, rfl, ?_⟩
          show o5.location = _
          rw [(add_material_fields _ _ _ _ _ _ _ heq).1,
              (rescale_fields _ _).1]
        · obtain ⟨h1, h2, h3⟩ := hprops o ho
          exact ⟨h1, h2, by simpa using h3⟩

/-- A childless fixed joint takes the early branch of `build_objectmode`:
with a parent, one `add_link_frame` call against the parent's bone; with no
parent, nothing at all. -/
theorem build_objectmode_fixed_leaf (reg : List (String × MatEntry))
    (j : URDFJoint) (parent : Option URDFJoint) (s : Scene)
    (hcond : (j.children.isEmpty && (j.type == FIXED)) = true) :
    build_objectmode reg j parent s
      = match parent with
        | none => .ok s
        | some p => add_link_frame reg j.name j.link (some p.name)
            (some j.xyz) (some j.rot) s := by
  cases j with
  | mk n t xyz rot lk ax lim children =>
    simp only [URDFJoint.children] at hcond
    simp [build_objectmode, hcond, URDFJoint.name, URDFJoint.xyz,
      URDFJoint.rot, URDFJoint.link]

/-- A successful `add_link_frame` against a parent bone, with offset and
orientation: pose bones untouched, and every appended object bone-parented
at the bone's rest position plus the rotated offset. -/
theorem add_link_frame_ok (reg : List (String × MatEntry))
    (selfName : String) (link : URDFLink) (jn : String) (t : Vec3)
    (q : Quat) (s s' : Scene)
    (h : add_link_frame reg selfName link (some jn) (some t) (some q) s
          = .ok s') :
    s'.poseBones = s.poseBones ∧
    ∃ news, s'.objects = s.objects ++ news ∧
      ∀ o ∈ news, o.parent_bone = some jn ∧ o.parent_type = "BONE" ∧
        ∀ bone, s.findBone jn = some bone →
          o.location = bone.matrix_local.loc + qrot q t := by
  unfold add_link_frame at h
  cases hv : link.visual with
  | none =>
    simp only [hv] at h
    cases h
    exact ⟨rfl, [], by simp, by simp⟩
  | some vis =>
    simp only [hv, Option.getD] at h
    cases hvs : create_objects_by_link link with
    | nil =>
      rw [hvs] at h
      simp only [process_visuals] at h
      cases h
      exact ⟨rfl, [], by simp, by simp⟩
    | cons v vs =>
      rw [hvs] at h
      cases hbone : s.findBone jn with
      | none =>
        simp only [process_visuals, hbone, bind, Except.bind] at h
        cases h
      | some bone =>
        obtain ⟨hpose, hname, news, hobjs, hprops⟩ :=
          process_visuals_ok reg link jn t q (v :: vs) s s' bone hbone h
        refine ⟨hpose, news, hobjs, fun o ho => ?_⟩
        refine ⟨(hprops o ho).1, (hprops o ho).2.1, fun bone0 hb0 => ?_⟩
        injection hb0 with hb0
        subst hb0
        exact (hprops o ho).2.2

/-- Claim C7: a leaf joint of kind `fixed` with a parent hands its link's
visuals to `add_link_frame` targeted at the *parent's* bone with the
joint's own translation and orientation as offset, and stops — the pose
bones are untouched (no bone is resolved, no locks or joint configuration
are applied) and every produced object is bone-parented to the parent bone
at the bone's rest position plus `rot * xyz`.  A fixed leaf with no parent
produces nothing. -/
theorem claim_C7 (reg : List (String × MatEntry)) (j p : URDFJoint)
    (s : Scene) (hleaf : j.children = []) (hfix : j.type = FIXED) :
    (build_objectmode reg j (some p) s
       = add_link_frame reg j.name j.link (some p.name) (some j.xyz)
           (some j.rot) s) ∧
    (∀ s', build_objectmode reg j (some p) s = .ok s' →
       s'.poseBones = s.poseBones ∧
       ∃ news, s'.objects = s.objects ++ news ∧
         ∀ o ∈ news, o.parent_bone = some p.name ∧
           o.parent_type = "BONE" ∧
           ∀ bone, s.findBone p.name = some bone →
             o.location = bone.matrix_local.loc + qrot j.rot j.xyz) ∧
    build_objectmode reg j none s = .ok s := by
  have hcond : (j.children.isEmpty && (j.type == FIXED)) = true := by
    rw [hleaf, hfix]
    rfl
  have he := build_objectmode_fixed_leaf reg j (some p) s hcond
  have hn := build_objectmode_fixed_leaf reg j none s hcond
  refine ⟨he, fun s' hs' => ?_, hn⟩
  rw [he] at hs'
  exact add_link_frame_ok reg j.name j.link p.name j.xyz j.rot s s' hs'

/-- A link with a 2×1×1 box visual, for the C7 witness. -/
def linkC7 : URDFLink :=
  URDFLink.make ⟨"lb7", none, some ⟨none, some (.box ⟨2, 1, 1⟩), none⟩, none⟩

/-- A fixed leaf joint at offset `(1,0,0)` carrying `linkC7`. -/
def jointC7 : URDFJoint :=
  .mk "j7" "fixed" ⟨1, 0, 0⟩ Quat.one linkC7 none none []

/-- The parent joint of `jointC7`. -/
def parentC7 : URDFJoint :=
  .mk "p7" "revolute" ⟨0, 0, 0⟩ Quat.one linkPlain none none [jointC7]

/-- A scene holding the parent's bone and pose bone. -/
def sceneC7 : Scene :=
  ⟨"arm",
   [⟨"p7", none, ⟨0, 0, 0⟩, ⟨0, 0, EPSILON⟩, boneRestMatrix ⟨0, 0, 0⟩,
     false⟩],
   [("p7", PoseBone.fresh)], [], [], []⟩

/-- Witness for C7: the theorem applied to the concrete fixed leaf — with
the parent it reduces to the redirected `add_link_frame` call, without a
parent it returns the scene unchanged. -/
theorem claim_C7_witness :
    (build_objectmode [] jointC7 (some parentC7) sceneC7
       = add_link_frame [] jointC7.name jointC7.link (some parentC7.name)
           (some jointC7.xyz) (some jointC7.rot) sceneC7) ∧
    build_objectmode [] jointC7 none sceneC7 = .ok sceneC7 :=
  ⟨(claim_C7 [] jointC7 parentC7 sceneC7 rfl rfl).1,
   (claim_C7 [] jointC7 parentC7 sceneC7 rfl rfl).2.2⟩

/-! ## Claim C10 — the base link's visuals -/

/-- Claim C10: in `URDF.build`, after pass 1 and before the switch to
object mode and pass 2, a base link with a visual descriptor has its
geometry instantiated and every produced object parented directly to the
armature object with `ARMATURE` (armature-level, not bone-relative)
parenting; a base link without a visual adds no scene object. -/
theorem claim_C10 (reg : List (String × MatEntry)) (base : URDFLink)
    (roots : List URDFJoint) (name : String) (store : List HostMat) :
    (base.visual.isSome = true →
      base_link_step base (pass1 roots (scene_init name store))
        = { pass1 roots (scene_init name store) with
            objects := (pass1 roots (scene_init name store)).objects ++
              (create_objects_by_link base).map (fun v =>
                { v with parent := some name,
                         parent_type := "ARMATURE" }) } ∧
      ∀ o ∈ (create_objects_by_link base).map (fun v =>
          { v with parent := some name, parent_type := "ARMATURE" }),
        o.parent = some name ∧ o.parent_type = "ARMATURE") ∧
    (base.visual = none →
      base_link_step base (pass1 roots (scene_init name store))
        = pass1 roots (scene_init name store)) ∧
    URDF.build reg base roots name store
      = pass2 reg roots (mode_set_object (base_link_step base
          (pass1 roots (scene_init name store)))) := by
  refine ⟨fun hv => ⟨?_, ?_⟩, fun hv => ?_, rfl⟩
  · obtain ⟨vis, hvis⟩ := Option.isSome_iff_exists.mp hv
    simp [base_link_step, hvis, pass1, scene_init]
  · intro o ho
    simp only [List.mem_map] at ho
    obtain ⟨v, _hv0, rfl⟩ := ho
    exact ⟨rfl, rfl⟩
  · simp only [base_link_step, hv]

/-- A base link with a box visual, for the C10 witness. -/
def baseC10 : URDFLink :=
  URDFLink.make
    ⟨"base10", none, some ⟨none, some (.box ⟨2, 1, 1⟩), none⟩, none⟩

/-- Witness for C10: the theorem applied to the concrete base link with a
visual — its objects are appended between pass 1 and pass 2 with
armature-level parenting. -/
theorem claim_C10_witness :
    base_link_step baseC10 (pass1 [] (scene_init "arm" []))
      = { pass1 [] (scene_init "arm" []) with
          objects := (pass1 [] (scene_init "arm" [])).objects ++
            (create_objects_by_link baseC10).map (fun v =>
              { v with parent := some "arm",
                       parent_type := "ARMATURE" }) } :=
  ((claim_C10 [] baseC10 [] "arm" []).1 rfl).1
